import Mathlib

/-!
Shallow embedding of `src/script.js` (the mapty activity-logging widget).

Modelling conventions:
* A JavaScript numeric value (the result of `Number(...)`) is `JNum`:
  `NaN`, `Infinity`, `-Infinity`, or a finite number modelled as a rational.
* The in-memory `#workouts` array may hold `Workout` objects, `undefined`
  (pushed when the kind selector matches neither branch of `_newWorkout`),
  or `null` (produced by `JSON.parse` from a serialized `undefined`); `JElem`
  covers the three cases.
* `Date.now()` / `new Date()` are modelled by an explicit `nowMs : ℕ`
  (milliseconds since the epoch) passed to each operation; `getMonth` /
  `getDate` are computed from it with the standard civil-calendar algorithm
  (UTC; the browser uses the local timezone, which only shifts the label).
* `JSON.stringify` of a `Workout` keeps every own enumerable field; the
  `date` field serializes to its ISO string, which denotes the same instant,
  so serialization is value-preserving on `obj` elements and maps
  `undefined` array elements to `null`.
* An uncaught JavaScript exception escaping the handler is the outcome
  `typeError`; the `alert`-and-return path of failed validation is
  `invalidInput`; state mutations performed before a throw are kept.
-/

namespace Mapty

/-- A JavaScript number as produced by `Number(...)`: `NaN`, `Infinity`,
`-Infinity`, or a finite value (modelled as a rational). -/
inductive JNum where
  | nan : JNum
  | posInf : JNum
  | negInf : JNum
  | fin : ℚ → JNum
deriving DecidableEq

/-- `Number.isFinite` (src/script.js line 145). -/
def JNum.isFinite : JNum → Bool
  | .fin _ => true
  | _ => false

/-- The JavaScript comparison `inp > 0` (src/script.js line 146):
`NaN > 0` and `-Infinity > 0` are false, `Infinity > 0` is true. -/
def JNum.gtZero : JNum → Bool
  | .fin q => decide (0 < q)
  | .posInf => true
  | _ => false

/-- The rational carried by a finite `JNum`; only applied after the
`Number.isFinite` checks of `_newWorkout` have succeeded. -/
def JNum.toRat : JNum → ℚ
  | .fin q => q
  | _ => 0

/-- `validInputs` of `_newWorkout` (src/script.js line 144): every input is a
finite number. -/
def validInputs (inputs : List JNum) : Bool := inputs.all JNum.isFinite

/-- `allPositive` of `_newWorkout` (src/script.js line 146): every input
compares `> 0`. -/
def allPositive (inputs : List JNum) : Bool := inputs.all JNum.gtZero

/-- Milliseconds in a day, to turn an epoch timestamp into a day count. -/
def msPerDay : ℕ := 86400000

/-- Civil date (year, month 1..12, day 1..31) from a count of days since
1970-01-01, by the standard era/day-of-era algorithm. -/
def civilFromDays (z : ℕ) : ℕ × ℕ × ℕ :=
  let z' := z + 719468
  let era := z' / 146097
  let doe := z' % 146097
  let yoe := (doe - doe / 1460 + doe / 36524 - doe / 146096) / 365
  let doy := doe - (365 * yoe + yoe / 4 - yoe / 100)
  let mp := (5 * doy + 2) / 153
  let d := doy - (153 * mp + 2) / 5 + 1
  let m := if mp < 10 then mp + 3 else mp - 9
  (yoe + era * 400 + (if m ≤ 2 then 1 else 0), m, d)

/-- `Date.prototype.getMonth` (0-based month) of an epoch-ms timestamp. -/
def dateGetMonth (ms : ℕ) : ℕ := (civilFromDays (ms / msPerDay)).2.1 - 1

/-- `Date.prototype.getDate` (day of month) of an epoch-ms timestamp. -/
def dateGetDate (ms : ℕ) : ℕ := (civilFromDays (ms / msPerDay)).2.2

/-- The month-name table of `_setDescription` (src/script.js line 24). -/
def months : List String :=
  ["January", "February", "March", "April", "May", "June", "July",
   "August", "September", "October", "November", "December"]

/-- `_setDescription` (src/script.js lines 22-28): capitalized type, the word
"on", month name and day of month of the creation date. -/
def setDescription (type : String) (dateMs : ℕ) : String :=
  (type.take 1).toUpper ++ type.drop 1 ++ " on " ++
    months.getD (dateGetMonth dateMs) "" ++ " " ++ toString (dateGetDate dateMs)

/-- `String.prototype.slice(-10)`: the last ten characters (the whole string
when it is shorter). -/
def sliceLastTen (s : String) : String := s.drop (s.length - 10)

/-- The `id` field initializer of `Workout` (src/script.js line 14):
`Date.now().toString().slice(-10)`. -/
def workoutId (nowMs : ℕ) : String := sliceLastTen (Nat.repr nowMs)

/-- The variant-specific fields: `Running` carries `cadence` and the derived
`pace`, `Cycling` carries `elevation` and the derived `speed`. -/
inductive WorkoutExtra where
  | running (cadence pace : ℚ)
  | cycling (elevation speed : ℚ)
deriving DecidableEq

/-- The flat field record of a workout object: the own enumerable fields that
`JSON.stringify` serializes (src/script.js lines 12-61). A restored plain
record has the same shape, so the type also models deserialized records. -/
structure Workout where
  date : ℕ
  id : String
  coordinates : ℚ × ℚ
  distance : ℚ
  duration : ℚ
  type : String
  extra : WorkoutExtra
  description : String
deriving DecidableEq

/-- `calcPace` (src/script.js lines 41-44): `duration / distance`. -/
def calcPace (duration distance : ℚ) : ℚ := duration / distance

/-- `calcSpeed` (src/script.js lines 57-60): `distance / (duration / 60)`. -/
def calcSpeed (distance duration : ℚ) : ℚ := distance / (duration / 60)

/-- The `Running` constructor (src/script.js lines 32-45): stores coordinates,
distance, duration and cadence, computes `pace` once, sets the description. -/
def mkRunning (nowMs : ℕ) (coordinates : ℚ × ℚ)
    (distance duration cadence : ℚ) : Workout :=
  { date := nowMs
    id := workoutId nowMs
    coordinates := coordinates
    distance := distance
    duration := duration
    type := "running"
    extra := .running cadence (calcPace duration distance)
    description := setDescription "running" nowMs }

/-- The `Cycling` constructor (src/script.js lines 48-61): stores coordinates,
distance, duration and elevation, computes `speed` once, sets the
description. -/
def mkCycling (nowMs : ℕ) (coordinates : ℚ × ℚ)
    (distance duration elevation : ℚ) : Workout :=
  { date := nowMs
    id := workoutId nowMs
    coordinates := coordinates
    distance := distance
    duration := duration
    type := "cycling"
    extra := .cycling elevation (calcSpeed distance duration)
    description := setDescription "cycling" nowMs }

/-- An element of the `#workouts` array: a workout-shaped object, the value
`undefined` (pushed by `_newWorkout` when no kind branch ran), or `null`
(what `JSON.parse` yields for a serialized `undefined`). -/
inductive JElem where
  | null : JElem
  | undef : JElem
  | obj : Workout → JElem
deriving DecidableEq

/-- The `#mapZoomLevel` field of `App` (src/script.js line 67). -/
def mapZoomLevel : ℕ := 13

/-- The mutable state of the `App` instance relevant to the core:
the `#workouts` array, the persisted `localStorage` slot under key
"workouts" (already parsed), and the `#mapEvent` coordinate of the last
map click (absent before any click). -/
structure AppState where
  workouts : List JElem
  storage : Option (List JElem)
  mapEvent : Option (ℚ × ℚ)
deriving DecidableEq

/-- What `JSON.stringify` followed by `JSON.parse` does to one array element:
`undefined` becomes `null`; `null` and plain field records are preserved. -/
def serializeElem : JElem → JElem
  | .undef => .null
  | e => e

/-- `_setLocalStorage` (src/script.js lines 283-285): overwrites the single
persisted slot with the serialization of the whole `#workouts` array. -/
def setLocalStorage (s : AppState) : AppState :=
  { s with storage := some (s.workouts.map serializeElem) }

/-- `_getLocalStorage` (src/script.js lines 287-295): if the slot is empty,
return; otherwise adopt the parsed records verbatim as the `#workouts`
array (list rendering of each record is a display effect, not state). -/
def getLocalStorage (s : AppState) : AppState :=
  match s.storage with
  | none => s
  | some data => { s with workouts := data }

/-- `_showForm` (src/script.js lines 120-124): records the map-click event's
coordinate in `#mapEvent` (form reveal and focus are display effects). -/
def showForm (s : AppState) (latlng : ℚ × ℚ) : AppState :=
  { s with mapEvent := some latlng }

/-- The observable outcome of a form-submission event: a completed handler,
the `alert`-and-return path of failed validation, or an uncaught
`TypeError` escaping the handler. -/
inductive Outcome where
  | success : Outcome
  | invalidInput : Outcome
  | typeError : Outcome
deriving DecidableEq

/-- The successful tail of `_newWorkout` (src/script.js lines 182-195): push
the new element, render it (display effects), hide the form (clears the
input fields only — `#mapEvent` is not touched), and persist the array. -/
def pushAndSync (s : AppState) (w : JElem) : AppState × Outcome :=
  (setLocalStorage { s with workouts := s.workouts ++ [w] }, .success)

/-- `_newWorkout` (src/script.js lines 142-196). Reads `#mapEvent.latlng`
first (throws when no map click happened yet); dispatches on the kind with
two independent `if`s and no `else`: an unrecognized kind skips both
branches, leaves `workout` as `undefined`, pushes it anyway, and then
`_renderWorkout(undefined)` throws before the form reset and the
`localStorage` write are reached. -/
def newWorkout (s : AppState) (nowMs : ℕ) (type : String)
    (distance duration cadence elevation : JNum) : AppState × Outcome :=
  match s.mapEvent with
  | none => (s, .typeError)
  | some latlng =>
    if type = "running" then
      if !distance.isFinite || !duration.isFinite || !cadence.isFinite
          || !allPositive [distance, duration, cadence] then
        (s, .invalidInput)
      else
        pushAndSync s (.obj (mkRunning nowMs latlng
          distance.toRat duration.toRat cadence.toRat))
    else if type = "cycling" then
      if !validInputs [distance, duration, elevation]
          || !allPositive [distance, duration] then
        (s, .invalidInput)
      else
        pushAndSync s (.obj (mkCycling nowMs latlng
          distance.toRat duration.toRat elevation.toRat))
    else
      ({ s with workouts := s.workouts ++ [JElem.undef] }, .typeError)

/-- The result of a list-item click reaching `_centerMapOnPopup`: a recenter
request to the map surface, or an uncaught `TypeError`. The constructor
`entryNotFound` is modelled from the spec: §7 prescribes an
`EntryNotFoundError` signal for a stale identifier; the source never
produces it, and the constructor exists to state that comparison. -/
inductive CenterResult where
  | recenter (coordinates : ℚ × ℚ) (zoom : ℕ) : CenterResult
  | typeError : CenterResult
  | entryNotFound : CenterResult
deriving DecidableEq

/-- `Array.prototype.find` with the predicate `work.id === i`
(src/script.js lines 271-273): scanning a `null` or `undefined` element
reads `work.id` off a non-object and throws. -/
def findById : List JElem → String → Except Unit (Option Workout)
  | [], _ => .ok none
  | .obj w :: rest, i => if w.id = i then .ok (some w) else findById rest i
  | _ :: _, _ => .error ()

/-- `_centerMapOnPopup` (src/script.js lines 266-281) after a list-item hit:
look the workout up by id and call `setView` on its coordinates at
`#mapZoomLevel`. There is no not-found guard: when `find` returns
`undefined`, reading `workout.coordinates` throws a `TypeError`. -/
def centerMapOnPopup (s : AppState) (i : String) : CenterResult :=
  match findById s.workouts i with
  | .error _ => .typeError
  | .ok none => .typeError
  | .ok (some w) => .recenter w.coordinates mapZoomLevel

/-- The stored `pace` field of a distance-based record, when present. -/
def paceOf (w : Workout) : Option ℚ :=
  match w.extra with
  | .running _ p => some p
  | _ => none

/-- The stored `speed` field of an elevation-based record, when present. -/
def speedOf (w : Workout) : Option ℚ :=
  match w.extra with
  | .cycling _ sp => some sp
  | _ => none

/-- The `id` field of an array element, when the element is an object. -/
def idOf : JElem → Option String
  | .obj w => some w.id
  | _ => none

/-- The `coordinates` field of an array element, when it is an object. -/
def coordsOf : JElem → Option (ℚ × ℚ)
  | .obj w => some w.coordinates
  | _ => none

/-! Helper lemmas characterizing the branches of `_newWorkout`. -/

theorem allPositive_fin (a b c : ℚ) (ha : 0 < a) (hb : 0 < b) (hc : 0 < c) :
    allPositive [JNum.fin a, JNum.fin b, JNum.fin c] = true := by
  simp [allPositive, JNum.gtZero, ha, hb, hc]

theorem allPositive_fin₂ (a b : ℚ) (ha : 0 < a) (hb : 0 < b) :
    allPositive [JNum.fin a, JNum.fin b] = true := by
  simp [allPositive, JNum.gtZero, ha, hb]

theorem newWorkout_running_valid (s : AppState) (c : ℚ × ℚ) (t : ℕ)
    (d dur cad : ℚ) (e : JNum) (hme : s.mapEvent = some c)
    (hd : 0 < d) (hdur : 0 < dur) (hcad : 0 < cad) :
    newWorkout s t "running" (.fin d) (.fin dur) (.fin cad) e
      = (setLocalStorage
          { s with workouts := s.workouts ++ [.obj (mkRunning t c d dur cad)] },
         .success) := by
  simp [newWorkout, hme, JNum.isFinite, allPositive, JNum.gtZero, hd, hdur,
    hcad, pushAndSync, JNum.toRat]

theorem newWorkout_cycling_valid (s : AppState) (c : ℚ × ℚ) (t : ℕ)
    (d dur elev : ℚ) (cadence : JNum) (hme : s.mapEvent = some c)
    (hd : 0 < d) (hdur : 0 < dur) :
    newWorkout s t "cycling" (.fin d) (.fin dur) cadence (.fin elev)
      = (setLocalStorage
          { s with workouts := s.workouts ++ [.obj (mkCycling t c d dur elev)] },
         .success) := by
  simp [newWorkout, hme, validInputs, JNum.isFinite, allPositive, JNum.gtZero,
    hd, hdur, pushAndSync, JNum.toRat]

theorem newWorkout_running_invalid (s : AppState) (c : ℚ × ℚ) (t : ℕ)
    (distance duration cadence elevation : JNum) (hme : s.mapEvent = some c)
    (hbad : (!distance.isFinite || !duration.isFinite || !cadence.isFinite
        || !allPositive [distance, duration, cadence]) = true) :
    newWorkout s t "running" distance duration cadence elevation
      = (s, .invalidInput) := by
  simp [newWorkout, hme, hbad]

theorem serializeElem_of_ne_undef (e : JElem) (h : e ≠ JElem.undef) :
    serializeElem e = e := by
  cases e <;> simp_all [serializeElem]

theorem map_serializeElem_of_no_undef (l : List JElem)
    (h : ∀ e ∈ l, e ≠ JElem.undef) : l.map serializeElem = l := by
  induction l with
  | nil => rfl
  | cons a t ih =>
    simp only [List.map_cons]
    rw [serializeElem_of_ne_undef a (h a (by simp)),
      ih (fun e he => h e (by simp [he]))]

/-- C2: an entry constructed from valid inputs stores the spec formula as its
derived metric, computed at construction: `pace = duration / distance` for a
distance-based entry and `speed = distance / (duration / 60)` for an
elevation-based entry. -/
theorem derived_metric_matches_formula (nowMs : ℕ) (c : ℚ × ℚ)
    (d dur cad elev : ℚ) (_hd : 0 < d) (_hdur : 0 < dur) (_hcad : 0 < cad) :
    paceOf (mkRunning nowMs c d dur cad) = some (dur / d) ∧
    speedOf (mkCycling nowMs c d dur elev) = some (d / (dur / 60)) :=
  ⟨rfl, rfl⟩

/-- Witness for C2 at the spec's example: 5.2 km in 24 min at cadence 178. -/
theorem derived_metric_matches_formula_witness :
    (0 : ℚ) < 26 / 5 ∧ (0 : ℚ) < 24 ∧ (0 : ℚ) < 178 ∧
    (paceOf (mkRunning 0 (407 / 10, -739 / 10) (26 / 5) 24 178)
        = some (24 / (26 / 5)) ∧
      speedOf (mkCycling 0 (407 / 10, -739 / 10) (26 / 5) 24 0)
        = some ((26 / 5) / (24 / 60))) :=
  ⟨by norm_num, by norm_num, by norm_num,
    derived_metric_matches_formula 0 (407 / 10, -739 / 10) (26 / 5) 24 178 0
      (by norm_num) (by norm_num) (by norm_num)⟩

/-- C4: restoring from the snapshot written by persist yields the same
sequence of entries — same length, ids, field values and order — for every
log whose elements are entries (not the `undefined` value of the
unrecognized-kind path, which serializes to `null`). -/
theorem persist_restore_roundtrip (s : AppState)
    (h : ∀ e ∈ s.workouts, e ≠ JElem.undef) :
    (getLocalStorage (setLocalStorage s)).workouts = s.workouts :=
  map_serializeElem_of_no_undef s.workouts h

/-- Witness for C4 on a two-entry log. -/
theorem persist_restore_roundtrip_witness :
    (∀ e ∈ (AppState.mk
        [JElem.obj (mkRunning 1000 (1, 2) 5 25 170),
          JElem.obj (mkCycling 2000 (3, 4) 20 95 120)] none none).workouts,
      e ≠ JElem.undef) ∧
    (getLocalStorage (setLocalStorage (AppState.mk
        [JElem.obj (mkRunning 1000 (1, 2) 5 25 170),
          JElem.obj (mkCycling 2000 (3, 4) 20 95 120)] none none))).workouts
      = [JElem.obj (mkRunning 1000 (1, 2) 5 25 170),
          JElem.obj (mkCycling 2000 (3, 4) 20 95 120)] :=
  ⟨by decide, persist_restore_roundtrip _ (by decide)⟩

/-- An elevation-based record as it could sit in the persisted snapshot,
whose stored `speed` field (999) disagrees with `calcSpeed` of its stored
distance and duration. -/
def staleRec : Workout :=
  { date := 0
    id := "0000000000"
    coordinates := (0, 0)
    distance := 20
    duration := 95
    type := "cycling"
    extra := .cycling 100 999
    description := "Cycling on January 1" }

/-- C5: restore adopts the stored records verbatim — whatever parsed record
list sits in the slot becomes the in-memory sequence as-is, without
re-validation and without recomputing the derived metric. -/
theorem restore_adopts_verbatim (s : AppState) (data : List JElem)
    (h : s.storage = some data) : (getLocalStorage s).workouts = data := by
  simp [getLocalStorage, h]

/-- Witness for C5: a record whose stored speed is inconsistent with its
distance and duration is adopted unchanged. -/
theorem restore_adopts_verbatim_witness :
    (AppState.mk [] (some [JElem.obj staleRec]) none).storage
        = some [JElem.obj staleRec] ∧
    (getLocalStorage
        (AppState.mk [] (some [JElem.obj staleRec]) none)).workouts
      = [JElem.obj staleRec] ∧
    speedOf staleRec ≠ some (calcSpeed staleRec.distance staleRec.duration) :=
  ⟨rfl, restore_adopts_verbatim _ _ rfl, by norm_num [speedOf, staleRec, calcSpeed]⟩

/-- C6: persist is idempotent — a second persist with no intervening
mutation stores the same snapshot, since persisting does not change the
in-memory sequence it serializes. -/
theorem persist_idempotent (s : AppState) :
    (setLocalStorage (setLocalStorage s)).storage
      = (setLocalStorage s).storage := rfl

/-- C3: a submission whose raw fields fail validation — a required field
non-finite, or distance, duration, or (for a distance-based submission)
cadence not strictly positive — takes the alert-and-return path: no entry is
constructed and the whole state, the log included, is exactly as before. -/
theorem invalid_submission_no_mutation (s : AppState) (c : ℚ × ℚ) (t : ℕ)
    (type : String) (distance duration cadence elevation : JNum)
    (hme : s.mapEvent = some c)
    (hcase :
      (type = "running" ∧
        (distance.isFinite = false ∨ duration.isFinite = false ∨
          cadence.isFinite = false ∨ distance.gtZero = false ∨
          duration.gtZero = false ∨ cadence.gtZero = false)) ∨
      (type = "cycling" ∧
        (distance.isFinite = false ∨ duration.isFinite = false ∨
          elevation.isFinite = false ∨ distance.gtZero = false ∨
          duration.gtZero = false))) :
    newWorkout s t type distance duration cadence elevation
      = (s, .invalidInput) := by
  rcases hcase with ⟨hty, hbad⟩ | ⟨hty, hbad⟩ <;> subst hty
  · rcases hbad with h | h | h | h | h | h <;>
      simp [newWorkout, hme, allPositive, h]
  · rcases hbad with h | h | h | h | h <;>
      simp [newWorkout, hme, validInputs, allPositive, h]

/-- Witness for C3: submitting a running entry with distance -5 leaves the
state untouched and reports invalid input. -/
theorem invalid_submission_no_mutation_witness :
    (JNum.fin (-5)).gtZero = false ∧
    newWorkout (AppState.mk [] none (some (40, -73))) 100 "running"
        (.fin (-5)) (.fin 24) (.fin 178) (.fin 0)
      = (AppState.mk [] none (some (40, -73)), .invalidInput) :=
  ⟨by decide,
    invalid_submission_no_mutation _ (40, -73) 100 "running" _ _ _ _ rfl
      (Or.inl ⟨rfl, Or.inr (Or.inr (Or.inr (Or.inl (by decide))))⟩)⟩

/-- C7: validation is asymmetric across kinds: an elevation-based submission
with positive distance and duration succeeds for every finite elevation,
zero and negative included, and places the new entry at the end of the log,
regardless of the cadence field's value; a non-finite elevation fails
validation. -/
theorem elevation_validation_asymmetry (s : AppState) (c : ℚ × ℚ) (t : ℕ)
    (d dur elev : ℚ) (cadence badElev : JNum)
    (hme : s.mapEvent = some c) (hd : 0 < d) (hdur : 0 < dur)
    (hbad : badElev.isFinite = false) :
    (newWorkout s t "cycling" (.fin d) (.fin dur) cadence (.fin elev)).2
        = .success ∧
    (newWorkout s t "cycling" (.fin d) (.fin dur) cadence
          (.fin elev)).1.workouts
        = s.workouts ++ [.obj (mkCycling t c d dur elev)] ∧
    newWorkout s t "cycling" (.fin d) (.fin dur) cadence badElev
        = (s, .invalidInput) := by
  refine ⟨?_, ?_, ?_⟩
  · rw [newWorkout_cycling_valid s c t d dur elev cadence hme hd hdur]
  · rw [newWorkout_cycling_valid s c t d dur elev cadence hme hd hdur]
    rfl
  · simp [newWorkout, hme, validInputs, hbad]

/-- Witness for C7: elevation -200 with cadence field 0 succeeds; elevation
`NaN` is rejected. -/
theorem elevation_validation_asymmetry_witness :
    (0 : ℚ) < 20 ∧ (0 : ℚ) < 95 ∧ JNum.nan.isFinite = false ∧
    ((newWorkout (AppState.mk [] none (some (40, -73))) 100 "cycling"
          (.fin 20) (.fin 95) (.fin 0) (.fin (-200))).2 = .success ∧
      (newWorkout (AppState.mk [] none (some (40, -73))) 100 "cycling"
          (.fin 20) (.fin 95) (.fin 0) (.fin (-200))).1.workouts
        = [] ++ [.obj (mkCycling 100 (40, -73) 20 95 (-200))] ∧
      newWorkout (AppState.mk [] none (some (40, -73))) 100 "cycling"
          (.fin 20) (.fin 95) (.fin 0) JNum.nan
        = (AppState.mk [] none (some (40, -73)), .invalidInput)) :=
  ⟨by norm_num, by norm_num, rfl,
    elevation_validation_asymmetry _ (40, -73) 100 20 95 (-200) (.fin 0) .nan
      rfl (by norm_num) (by norm_num) rfl⟩

/-- C1 counterexample: two successful submissions in the same millisecond
(`Date.now()` returning 1700000000000 both times) yield two distinct entries
carrying the same `id`, because the id is the truncated timestamp. -/
theorem id_uniqueness_cex :
    (newWorkout (AppState.mk [] none (some (0, 0))) 1700000000000 "running"
        (.fin 5) (.fin 25) (.fin 170) (.fin 0)).2 = Outcome.success ∧
    (newWorkout
        (newWorkout (AppState.mk [] none (some (0, 0))) 1700000000000
          "running" (.fin 5) (.fin 25) (.fin 170) (.fin 0)).1
        1700000000000 "running" (.fin 8) (.fin 40) (.fin 160) (.fin 0)).2
      = Outcome.success ∧
    (newWorkout
        (newWorkout (AppState.mk [] none (some (0, 0))) 1700000000000
          "running" (.fin 5) (.fin 25) (.fin 170) (.fin 0)).1
        1700000000000 "running" (.fin 8) (.fin 40) (.fin 160)
        (.fin 0)).1.workouts.map idOf
      = [some "0000000000", some "0000000000"] := by
  rw [newWorkout_running_valid (AppState.mk [] none (some (0, 0))) (0, 0)
    1700000000000 5 25 170 (.fin 0) rfl (by norm_num) (by norm_num)
    (by norm_num)]
  rw [newWorkout_running_valid _ (0, 0) 1700000000000 8 40 160 (.fin 0) rfl
    (by norm_num) (by norm_num) (by norm_num)]
  exact ⟨rfl, rfl, rfl⟩

/-- C1 amended: the `id` of an entry is `Date.now().toString().slice(-10)`,
so the ids of two successfully submitted entries are distinct exactly when
the decimal representations of their creation timestamps differ in their
last ten digits; submissions in the same millisecond collide. -/
theorem id_uniqueness_amended (s : AppState) (c : ℚ × ℚ) (t1 t2 : ℕ)
    (d1 dur1 cad1 d2 dur2 cad2 : ℚ) (hme : s.mapEvent = some c)
    (hd1 : 0 < d1) (hdur1 : 0 < dur1) (hcad1 : 0 < cad1)
    (hd2 : 0 < d2) (hdur2 : 0 < dur2) (hcad2 : 0 < cad2) :
    ∃ w1 w2 : Workout,
      (newWorkout s t1 "running" (.fin d1) (.fin dur1) (.fin cad1)
          (.fin 0)).1.workouts = s.workouts ++ [.obj w1] ∧
      (newWorkout
          (newWorkout s t1 "running" (.fin d1) (.fin dur1) (.fin cad1)
            (.fin 0)).1
          t2 "running" (.fin d2) (.fin dur2) (.fin cad2)
          (.fin 0)).1.workouts = s.workouts ++ [.obj w1, .obj w2] ∧
      (w1.id = w2.id ↔
        sliceLastTen (Nat.repr t1) = sliceLastTen (Nat.repr t2)) := by
  refine ⟨mkRunning t1 c d1 dur1 cad1, mkRunning t2 c d2 dur2 cad2, ?_, ?_,
    Iff.rfl⟩
  · rw [newWorkout_running_valid s c t1 d1 dur1 cad1 _ hme hd1 hdur1 hcad1]
    rfl
  · have h2 := newWorkout_running_valid
      (setLocalStorage
        { s with workouts := s.workouts ++ [JElem.obj (mkRunning t1 c d1 dur1 cad1)] })
      c t2 d2 dur2 cad2 (.fin 0) hme hd2 hdur2 hcad2
    rw [newWorkout_running_valid s c t1 d1 dur1 cad1 _ hme hd1 hdur1 hcad1]
    dsimp only
    rw [h2]
    simp [setLocalStorage]

/-- Witness for the amended C1: submissions at timestamps 5 and 10005 get
distinct ids because the truncated timestamps differ. -/
theorem id_uniqueness_amended_witness :
    (0 : ℚ) < 5 ∧ (0 : ℚ) < 25 ∧ (0 : ℚ) < 170 ∧
    (0 : ℚ) < 8 ∧ (0 : ℚ) < 40 ∧ (0 : ℚ) < 160 ∧
    (∃ w1 w2 : Workout,
      (newWorkout (AppState.mk [] none (some (0, 0))) 5 "running"
          (.fin 5) (.fin 25) (.fin 170) (.fin 0)).1.workouts
        = (AppState.mk [] none (some (0, 0))).workouts ++ [.obj w1] ∧
      (newWorkout
          (newWorkout (AppState.mk [] none (some (0, 0))) 5 "running"
            (.fin 5) (.fin 25) (.fin 170) (.fin 0)).1
          10005 "running" (.fin 8) (.fin 40) (.fin 160)
          (.fin 0)).1.workouts
        = (AppState.mk [] none (some (0, 0))).workouts ++ [.obj w1, .obj w2] ∧
      (w1.id = w2.id ↔
        sliceLastTen (Nat.repr 5) = sliceLastTen (Nat.repr 10005))) :=
  ⟨by norm_num, by norm_num, by norm_num, by norm_num, by norm_num,
    by norm_num,
    id_uniqueness_amended (AppState.mk [] none (some (0, 0))) (0, 0) 5 10005
      5 25 170 8 40 160 rfl (by norm_num) (by norm_num) (by norm_num)
      (by norm_num) (by norm_num) (by norm_num)⟩

/-- C8 counterexample: clicking a list item whose id matches no entry makes
`_centerMapOnPopup` read `coordinates` off `undefined` — an unchecked
`TypeError`, not an `EntryNotFoundError` signal. -/
theorem centerOn_missing_id_cex :
    centerMapOnPopup (AppState.mk [] none none) "1234567890"
        = CenterResult.typeError ∧
    centerMapOnPopup (AppState.mk [] none none) "1234567890"
        ≠ CenterResult.entryNotFound :=
  ⟨rfl, by decide⟩

/-- C8 amended: when an entry with the clicked id exists, the map surface is
asked to recenter on that entry's coordinate at the fixed default zoom
(`#mapZoomLevel = 13`); when no entry matches, the lookup is unguarded and
the handler fails with an unchecked `TypeError` instead of signalling
`EntryNotFoundError`. -/
theorem centerOn_behavior (s : AppState) (i : String) :
    (∀ w : Workout, findById s.workouts i = .ok (some w) →
      centerMapOnPopup s i = .recenter w.coordinates mapZoomLevel) ∧
    (findById s.workouts i = .ok none →
      centerMapOnPopup s i = .typeError) := by
  constructor
  · intro w hw
    simp [centerMapOnPopup, hw]
  · intro hw
    simp [centerMapOnPopup, hw]

/-- Witness for the amended C8: a one-entry log recenters on the entry's
coordinate at zoom 13; an empty log gives the unchecked failure. -/
theorem centerOn_behavior_witness :
    centerMapOnPopup
        (AppState.mk [JElem.obj (mkRunning 123 (7, 8) 5 25 170)] none none)
        "123" = CenterResult.recenter (7, 8) mapZoomLevel ∧
    centerMapOnPopup (AppState.mk [] none none) "123"
        = CenterResult.typeError :=
  ⟨(centerOn_behavior
      (AppState.mk [JElem.obj (mkRunning 123 (7, 8) 5 25 170)] none none)
      "123").1 (mkRunning 123 (7, 8) 5 25 170) rfl,
    (centerOn_behavior (AppState.mk [] none none) "123").2 rfl⟩

/-- C9 counterexample: after a failed validation the held map-click
coordinate (40, -73) is still in place, and a following valid submission
succeeds and stamps the new entry with that very coordinate — no new map
click happened in between. -/
theorem coordinate_discard_cex :
    newWorkout (AppState.mk [] none (some (40, -73))) 100 "running"
        (.fin (-5)) (.fin 24) (.fin 178) (.fin 0)
      = (AppState.mk [] none (some (40, -73)), Outcome.invalidInput) ∧
    (newWorkout
        (newWorkout (AppState.mk [] none (some (40, -73))) 100 "running"
          (.fin (-5)) (.fin 24) (.fin 178) (.fin 0)).1
        200 "running" (.fin 5) (.fin 24) (.fin 178) (.fin 0)).2
      = Outcome.success ∧
    (newWorkout
        (newWorkout (AppState.mk [] none (some (40, -73))) 100 "running"
          (.fin (-5)) (.fin 24) (.fin 178) (.fin 0)).1
        200 "running" (.fin 5) (.fin 24) (.fin 178)
        (.fin 0)).1.workouts.map coordsOf
      = [some (40, -73)] := by
  have h1 := newWorkout_running_invalid (AppState.mk [] none (some (40, -73)))
    (40, -73) 100 (.fin (-5)) (.fin 24) (.fin 178) (.fin 0) rfl (by decide)
  rw [h1]
  dsimp only
  rw [newWorkout_running_valid (AppState.mk [] none (some (40, -73)))
    (40, -73) 200 5 24 178 (.fin 0) rfl (by norm_num) (by norm_num)
    (by norm_num)]
  exact ⟨rfl, rfl, rfl⟩

/-- C9 amended: on validation failure nothing is discarded: the whole state,
the held map-click coordinate included, is exactly as before, and a
subsequent valid submission succeeds by consuming that same retained
coordinate — no new map click is required. -/
theorem coordinate_retained_after_failure (s : AppState) (c : ℚ × ℚ)
    (t1 t2 : ℕ) (bad : JNum) (d dur cad : ℚ)
    (hme : s.mapEvent = some c) (hbad : bad.gtZero = false)
    (hd : 0 < d) (hdur : 0 < dur) (hcad : 0 < cad) :
    newWorkout s t1 "running" bad (.fin dur) (.fin cad) (.fin 0)
        = (s, .invalidInput) ∧
    newWorkout
        (newWorkout s t1 "running" bad (.fin dur) (.fin cad) (.fin 0)).1
        t2 "running" (.fin d) (.fin dur) (.fin cad) (.fin 0)
      = (setLocalStorage
          { s with
            workouts := s.workouts ++ [.obj (mkRunning t2 c d dur cad)] },
         .success) := by
  have h1 : newWorkout s t1 "running" bad (.fin dur) (.fin cad) (.fin 0)
      = (s, .invalidInput) :=
    newWorkout_running_invalid s c t1 bad (.fin dur) (.fin cad) (.fin 0) hme
      (by simp [allPositive, hbad])
  refine ⟨h1, ?_⟩
  rw [h1]
  dsimp only
  exact newWorkout_running_valid s c t2 d dur cad _ hme hd hdur hcad

/-- Witness for the amended C9 at a concrete failed-then-valid pair of
submissions. -/
theorem coordinate_retained_after_failure_witness :
    (JNum.fin (-5)).gtZero = false ∧ (0 : ℚ) < 5 ∧ (0 : ℚ) < 24 ∧
    (0 : ℚ) < 178 ∧
    (newWorkout (AppState.mk [] none (some (40, -73))) 100 "running"
          (.fin (-5)) (.fin 24) (.fin 178) (.fin 0)
        = (AppState.mk [] none (some (40, -73)), .invalidInput) ∧
      newWorkout
          (newWorkout (AppState.mk [] none (some (40, -73))) 100 "running"
            (.fin (-5)) (.fin 24) (.fin 178) (.fin 0)).1
          200 "running" (.fin 5) (.fin 24) (.fin 178) (.fin 0)
        = (setLocalStorage
            { AppState.mk [] none (some (40, -73)) with
              workouts := (AppState.mk [] none (some (40, -73))).workouts
                ++ [.obj (mkRunning 200 (40, -73) 5 24 178)] },
           .success)) :=
  ⟨by decide, by norm_num, by norm_num, by norm_num,
    coordinate_retained_after_failure (AppState.mk [] none (some (40, -73)))
      (40, -73) 100 200 (.fin (-5)) 5 24 178 rfl (by decide) (by norm_num)
      (by norm_num) (by norm_num)⟩

/-- C10 counterexample: a submission with kind "hiking" appends the
`undefined` value to the in-memory sequence, but the handler then throws
while rendering it, so the persisted slot — empty beforehand — is never
written: the `undefined`-bearing sequence is not persisted. -/
theorem unknown_kind_cex :
    newWorkout (AppState.mk [] none (some (40, -73))) 100 "hiking"
        (.fin 5) (.fin 24) (.fin 178) (.fin 0)
      = (AppState.mk [JElem.undef] none (some (40, -73)),
         Outcome.typeError) := by
  rfl

/-- C10 amended: a submission whose kind matches neither recognized kind
skips validation and construction and still appends an `undefined` element
to the in-memory sequence, but the handler then fails with an unchecked
`TypeError` while rendering that element, so the form is not reset and the
sequence containing `undefined` is never persisted: the persisted slot is
left exactly as it was. -/
theorem unknown_kind_appends_then_throws (s : AppState) (c : ℚ × ℚ) (t : ℕ)
    (type : String) (distance duration cadence elevation : JNum)
    (hme : s.mapEvent = some c) (hr : type ≠ "running")
    (hc : type ≠ "cycling") :
    newWorkout s t type distance duration cadence elevation
      = ({ s with workouts := s.workouts ++ [JElem.undef] }, .typeError) := by
  simp [newWorkout, hme, hr, hc]

/-- Witness for the amended C10 with kind "hiking" and arbitrary concrete
field values. -/
theorem unknown_kind_appends_then_throws_witness :
    ("hiking" ≠ "running") ∧ ("hiking" ≠ "cycling") ∧
    newWorkout (AppState.mk [JElem.null] (some []) (some (40, -73))) 100
        "hiking" (.fin 5) (.fin 24) (.fin 178) (.fin 0)
      = ({ AppState.mk [JElem.null] (some []) (some (40, -73)) with
            workouts := (AppState.mk [JElem.null] (some [])
              (some (40, -73))).workouts ++ [JElem.undef] },
         .typeError) :=
  ⟨by decide, by decide,
    unknown_kind_appends_then_throws
      (AppState.mk [JElem.null] (some []) (some (40, -73))) (40, -73) 100
      "hiking" (.fin 5) (.fin 24) (.fin 178) (.fin 0) rfl (by decide)
      (by decide)⟩

end Mapty
